import Mathlib

/-!
Verification of the TechFusionReport/Automations content pipeline core against its
specification.  The JavaScript source is shallowly embedded: the key/value store is an
association list, queue sends append to a list, external network calls (the generative
oracle, the Notion intake API) are parameters or recorded effects, timestamps are
explicit `Nat` arguments, and JavaScript numbers appearing here (scores, counters) are
`Nat` since all arithmetic involved is non-negative integer arithmetic.
-/

namespace TechFusion

/-- Association-list model of the key/value store (`env.CONTENT_KV` / `env.AGENT_STATE`):
`get` returns the most recent `put` for a key.  `put` prepends, which realises the
overwrite semantics of the real store under `kvGet`. -/
def kvGet {α : Type} (st : List (String × α)) (k : String) : Option α :=
  match st with
  | [] => none
  | e :: rest => if e.1 = k then some e.2 else kvGet rest k

/-- `put(key, value)` on the association-list store. -/
def kvPut {α : Type} (st : List (String × α)) (k : String) (v : α) : List (String × α) :=
  (k, v) :: st

/-! ## JavaScript numeric-parsing embedding for `DiscoveryAgent.scoreContent`

The source line is `return parseInt(text.match(/\d+/)?.[0]) || 50;` with
`const text = data.candidates?.[0]?.content?.parts?.[0]?.text || '50';`.
`text.match(/\d+/)` yields the first maximal ASCII-digit run; `parseInt` of that run is
its integer value; `|| 50` maps both `NaN` (no match) and `0` to `50`; `|| '50'` maps a
missing or empty oracle response to the literal text `"50"`. -/

/-- Longest digit prefix of a character list (the tail of a `\d+` regex match). -/
def takeDigits : List Char → List Char
  | [] => []
  | c :: cs => if c.isDigit then c :: takeDigits cs else []

/-- First maximal run of ASCII digits in a character list (`text.match(/\d+/)?.[0]`). -/
def firstDigitRun : List Char → Option (List Char)
  | [] => none
  | c :: cs => if c.isDigit then some (c :: takeDigits cs) else firstDigitRun cs

/-- `parseInt` of a pure digit run. -/
def digitsToNat (ds : List Char) : Nat :=
  ds.foldl (fun n c => n * 10 + (c.toNat - 48)) 0

/-- The oracle response as observed by `scoreContent` after the optional chain:
`none` models a missing `candidates[0].content.parts[0].text`; `|| '50'` replaces a
missing or empty text by `"50"`. -/
def responseText (resp : Option String) : String :=
  match resp with
  | none => "50"
  | some t => if t = "" then "50" else t

/-- `parseInt(text.match(/\d+/)?.[0]) || 50`. -/
def parseScore (resp : Option String) : Nat :=
  match firstDigitRun (responseText resp).data with
  | none => 50
  | some ds => if digitsToNat ds = 0 then 50 else digitsToNat ds

/-! ## `btoa` (base64) embedding for the RSS dedup key

`processRSS` derives the dedup key as `btoa(link).substring(0, 20)`.  A JavaScript
string fed to `btoa` is a byte sequence, modelled as `List Nat`. -/

/-- The base64 alphabet used by `btoa`. -/
def b64Alphabet : List Char :=
  "ABCDEFGHIJKLMNOPQRSTUVWXYZabcdefghijklmnopqrstuvwxyz0123456789+/".data

/-- Character for a 6-bit group. -/
def b64Char (n : Nat) : Char := b64Alphabet.getD n 'A'

/-- `btoa`: encode a byte list into base64 characters, three bytes per four characters,
with `=` padding on a trailing chunk of one or two bytes. -/
def base64 : List Nat → List Char
  | [] => []
  | [b0] => [b64Char (b0 / 4), b64Char (b0 % 4 * 16), '=', '=']
  | [b0, b1] => [b64Char (b0 / 4), b64Char (b0 % 4 * 16 + b1 / 16), b64Char (b1 % 16 * 4), '=']
  | b0 :: b1 :: b2 :: rest =>
      b64Char (b0 / 4) :: b64Char (b0 % 4 * 16 + b1 / 16) ::
      b64Char (b1 % 16 * 4 + b2 / 64) :: b64Char (b2 % 64) :: base64 rest

/-! ## Discovery Deduplication & Scoring Engine (`src/agents/discovery.js`)

External I/O is abstracted at the call boundary: the source-listing fetch yields the
item list handed to `processYouTube`/`processRSS` (the YouTube API adapter and the
RSS `<item>` regex extraction are the I/O adapters of spec section 6), the generative
oracle is a function from the prompt string to its optional response text, and
`writeToNotion` records the intake payload it would send. -/

/-- One entry of the channel configuration (`channels_config`). -/
structure SourceConfig where
  id : String
  name : String
  type : String
  minScore : Option Nat
  category : String
  sectionName : String
  tags : List String
  featured : Bool
deriving DecidableEq

/-- `channel.minScore || 70`: JavaScript `||` treats both a missing and a zero
`minScore` as falsy. -/
def minScoreOr70 (c : SourceConfig) : Nat :=
  match c.minScore with
  | none => 70
  | some n => if n = 0 then 70 else n

/-- `DedupRecord`: the JSON value persisted by `markProcessed` (the `id` field is
present for YouTube records and absent for RSS records). -/
structure DedupRecord where
  id : Option String := none
  title : String
  url : String
  score : Nat
deriving DecidableEq

/-- A YouTube search result as adapted from the listing API
(`item.id.videoId`, `item.snippet.*`). -/
structure YTItem where
  videoId : String
  title : String
  description : String
  channelTitle : String
deriving DecidableEq

/-- An RSS feed entry after `extractXML`; the link is kept as the byte sequence that
`btoa` consumes. -/
structure RSSEntry where
  title : String
  link : List Nat
  description : String
deriving DecidableEq

/-- The payload of a `writeToNotion` call (the approved-item record sent to the
review/intake collaborator). -/
structure NotionIntake where
  title : String
  url : String
  description : String
  score : Nat
  channelTitle : String
  category : String
  sectionName : String
  tags : List String
  featured : Bool
  source : String
deriving DecidableEq

/-- State threaded through a discovery run: the shared key/value store, the counters of
`this.results`, and the list of intake records sent to the review collaborator. -/
structure DiscoveryState where
  kv : List (String × DedupRecord)
  youtube : Nat := 0
  rss : Nat := 0
  github : Nat := 0
  hackernews : Nat := 0
  approved : Nat := 0
  notion : List NotionIntake := []
deriving DecidableEq

/-- `isProcessed(key)`: the store holds a non-null value for the key. -/
def isProcessed (kv : List (String × DedupRecord)) (key : String) : Bool :=
  (kvGet kv key).isSome

/-- `markProcessed(key, data)` (the 30-day TTL is not modelled: the idempotency claims
assume the retention window has not elapsed, as the spec's dedup lifecycle states). -/
def markProcessed (kv : List (String × DedupRecord)) (key : String) (data : DedupRecord) :
    List (String × DedupRecord) :=
  kvPut kv key data

/-- The scoring prompt built by `scoreContent`
(`description?.substring(0, 500)` truncates the description). -/
def scorePrompt (title description category : String) : String :=
  "Score 0-100 for " ++ category ++ " tech blog relevance.\nTitle: \"" ++ title ++
  "\"\nDescription: \"" ++ description.take 500 ++
  "\"\n\nConsider: technical depth, tutorial potential, evergreen value, audience interest.\nReturn only the number."

/-- `scoreContent(title, description, category)`: build the prompt, consult the oracle,
parse the first integer of the response with fallback 50. -/
def scoreContent (oracle : String → Option String) (title description category : String) :
    Nat :=
  parseScore (oracle (scorePrompt title description category))

/-- Loop body of `processYouTube` for one listed video: skip if the dedup key is
already recorded, otherwise score, persist a `DedupRecord`, bump the `youtube` counter,
and on passing the admission threshold send the intake record and bump `approved`. -/
def processYTItem (channel : SourceConfig) (oracle : String → Option String)
    (st : DiscoveryState) (item : YTItem) : DiscoveryState :=
  let key := "video:" ++ item.videoId
  if isProcessed st.kv key then st
  else
    let score := scoreContent oracle item.title item.description channel.category
    let record : DedupRecord :=
      { id := some item.videoId, title := item.title
        url := "https://youtube.com/watch?v=" ++ item.videoId, score := score }
    let st1 : DiscoveryState :=
      { st with kv := markProcessed st.kv key record, youtube := st.youtube + 1 }
    if minScoreOr70 channel < score then
      { st1 with
        notion :=
          { title := item.title, url := "https://youtube.com/watch?v=" ++ item.videoId
            description := item.description, score := score
            channelTitle := item.channelTitle, category := channel.category
            sectionName := channel.sectionName, tags := channel.tags
            featured := channel.featured, source := channel.type } :: st1.notion
        approved := st1.approved + 1 }
    else st1

/-- `processYouTube(channel)` over the page of listed videos (`maxResults=10` bounds
the list at the API; the loop itself visits every listed item). -/
def processYouTube (channel : SourceConfig) (oracle : String → Option String)
    (items : List YTItem) (st : DiscoveryState) : DiscoveryState :=
  items.foldl (processYTItem channel oracle) st

/-- The RSS dedup identifier: `btoa(link).substring(0, 20)`. -/
def rssItemId (link : List Nat) : String :=
  String.mk ((base64 link).take 20)

/-- A link byte sequence rendered back as the stored URL string. -/
def bytesToString (l : List Nat) : String :=
  String.mk (l.map Char.ofNat)

/-- Loop body of `processRSS` for one extracted feed entry. -/
def processRSSEntry (feed : SourceConfig) (oracle : String → Option String)
    (st : DiscoveryState) (e : RSSEntry) : DiscoveryState :=
  let itemId := rssItemId e.link
  let key := "rss:" ++ itemId
  if isProcessed st.kv key then st
  else
    let score := scoreContent oracle e.title e.description feed.category
    let record : DedupRecord := { title := e.title, url := bytesToString e.link, score := score }
    let st1 : DiscoveryState :=
      { st with kv := markProcessed st.kv key record, rss := st.rss + 1 }
    if minScoreOr70 feed < score then
      { st1 with
        notion :=
          { title := e.title, url := bytesToString e.link, description := e.description
            score := score, channelTitle := feed.name, category := feed.category
            sectionName := feed.sectionName, tags := feed.tags, featured := feed.featured
            source := feed.type } :: st1.notion
        approved := st1.approved + 1 }
    else st1

/-- `processRSS(feed)` over the extracted entries (`items.slice(0, 10)`). -/
def processRSS (feed : SourceConfig) (oracle : String → Option String)
    (entries : List RSSEntry) (st : DiscoveryState) : DiscoveryState :=
  (entries.take 10).foldl (processRSSEntry feed oracle) st

/-! ## Workflow State Machine (`EnhancementOrchestrator`)

The generative call `callGemini(prompt, temperature)` is abstracted as a function from
the prompt string to the returned text (the temperature argument selects sampling
behaviour on the wire and does not affect the control flow embedded here).
`Date.now()` is an explicit `now` argument.  The two Notion API calls of `finalize`
are recorded as effects. -/

/-- `agents.research` entry: `{ findings, completedAt }`. -/
structure ResearchRecord where
  findings : String
  completedAt : Nat
deriving DecidableEq

/-- `agents.structure` entry: `{ outline, completedAt }`. -/
structure StructureRecord where
  outline : String
  completedAt : Nat
deriving DecidableEq

/-- `agents.factcheck` entry: `{ verification, completedAt }`. -/
structure FactcheckRecord where
  verification : String
  completedAt : Nat
deriving DecidableEq

/-- `agents.final` entry: `{ content, wordCount }`. -/
structure FinalRecord where
  content : String
  wordCount : Nat
deriving DecidableEq

/-- The `agents` map of a workflow (`stageResults` in the spec's data model); the
`structure` stage entry is named `structureStage` because `structure` is reserved in
Lean. -/
structure AgentResults where
  research : Option ResearchRecord := none
  structureStage : Option StructureRecord := none
  factcheck : Option FactcheckRecord := none
  final : Option FinalRecord := none
deriving DecidableEq

/-- The persisted `WorkflowState` JSON under key `workflow:<notionPageId>`. -/
structure WorkflowState where
  status : String
  notionPageId : String
  videoUrl : String
  category : String
  sectionName : String
  tags : List String
  startedAt : Nat
  agents : AgentResults := {}
  completedAt : Option Nat := none
deriving DecidableEq

/-- A message sent to `ENHANCEMENT_QUEUE` (fields absent from a given send are
`none`). -/
structure EnhMessage where
  type : String
  notionPageId : String
  videoUrl : Option String := none
  category : Option String := none
deriving DecidableEq

/-- The orchestrator's observable world: the `AGENT_STATE` store, the enhancement
queue sends (most recent first), and the Notion API calls made by `finalize`
(page ids, most recent first). -/
structure OrchWorld where
  agentState : List (String × WorkflowState) := []
  queueSent : List EnhMessage := []
  notionCalls : List String := []
deriving DecidableEq

/-- The store key for a workflow id. -/
def wfKey (id : String) : String := "workflow:" ++ id

/-- The input object of `start` (destructured
`{ notionPageId, videoUrl, category, section, tags }`). -/
structure StartInput where
  notionPageId : String
  videoUrl : String
  category : String
  sectionName : String
  tags : List String
deriving DecidableEq

/-- `start(...)`: unconditionally persist a fresh `WorkflowState` at `researching`
with empty `agents`, then enqueue the `research` message carrying the id, video URL
and category.  There is no existence check on the key before the `put`. -/
def start (now : Nat) (inp : StartInput) (w : OrchWorld) : OrchWorld :=
  let st : WorkflowState :=
    { status := "researching", notionPageId := inp.notionPageId
      videoUrl := inp.videoUrl, category := inp.category
      sectionName := inp.sectionName, tags := inp.tags
      startedAt := now, agents := {}, completedAt := none }
  { w with
    agentState := kvPut w.agentState (wfKey inp.notionPageId) st
    queueSent :=
      { type := "research", notionPageId := inp.notionPageId
        videoUrl := some inp.videoUrl, category := some inp.category } :: w.queueSent }

/-- The queue payload handed to a stage handler (the message body minus its `type`
tag); fields a given message does not carry are `none`, read back as the string
`"undefined"` where the source interpolates them into a prompt. -/
structure StepPayload where
  notionPageId : String
  videoUrl : Option String := none
  category : Option String := none
deriving DecidableEq

/-- `runResearch`'s prompt template. -/
def researchPrompt (category videoUrl : String) : String :=
  "Research this " ++ category ++ " video thoroughly:\nURL: " ++ videoUrl ++
  "\n\nProvide:\n1. Main technical topics (bullet list)\n2. Key tools/frameworks mentioned\n3. Current versions of technologies\n4. Related documentation links\n5. Target audience level\n6. 3 potential blog angles\n\nFormat as structured text."

/-- `runStructure`'s prompt template, consuming the research findings. -/
def structurePrompt (category findings : String) : String :=
  "Create detailed blog outline for " ++ category ++ " article:\n\nRESEARCH:\n" ++
  findings ++
  "\n\nCreate:\n1. SEO title (60 chars max)\n2. Meta description (155 chars)\n3. URL slug\n4. H2/H3 structure (3-5 sections)\n5. Key points per section\n6. Code snippet suggestions\n7. CTA placement\n\nMatch CSS-Tricks/Smashing Magazine style."

/-- `runFactCheck`'s prompt template, consuming research and outline. -/
def factcheckPrompt (findings outline : String) : String :=
  "Fact-check this content:\n\nRESEARCH: " ++ findings ++ "\nOUTLINE: " ++ outline ++
  "\n\nIdentify:\n1. Outdated technology references\n2. Unclear explanations\n3. Missing beginner context\n4. Potential inaccuracies (confidence: high/medium/low)\n5. Suggested corrections\n\nReturn structured report."

/-- `finalize`'s prompt template, consuming all accumulated stage output. -/
def finalPrompt (category findings outline verification : String) : String :=
  "Create complete " ++ category ++ " blog post (1500-2000 words):\n\nRESEARCH: " ++
  findings ++ "\nSTRUCTURE: " ++ outline ++ "\nFACT-CHECK: " ++ verification ++
  "\n\nRequirements:\n- Technical but accessible\n- Code examples as [CODE_BLOCK: description]\n- Affiliate placeholders: [AFFILIATE: toolname]\n- TL;DR at top\n- Clear CTA\n\nWrite complete markdown now."

/-- Number of maximal whitespace runs in a character list. -/
def wsRuns : List Char → Nat
  | [] => 0
  | c :: cs => if c.isWhitespace ∧ ¬ (cs.head?.any Char.isWhitespace) then wsRuns cs + 1 else wsRuns cs

/-- `content.split(/\s+/).length`: every maximal whitespace run is one split point, so
the result has one more element than there are runs. -/
def jsWordCount (s : String) : Nat := wsRuns s.data + 1

/-- `runResearch({notionPageId, videoUrl, category})`: load the state, generate
findings, record `agents.research`, advance `status` to `structuring`, persist, and
enqueue the `structure` message.  A missing state row makes the handler throw (the
`state.agents` access on `null`), before anything is written. -/
def runResearch (gemini : String → String) (now : Nat) (p : StepPayload) (w : OrchWorld) :
    Except String OrchWorld :=
  match kvGet w.agentState (wfKey p.notionPageId) with
  | none => .error "TypeError: state is null"
  | some state =>
    let findings :=
      gemini (researchPrompt (p.category.getD "undefined") (p.videoUrl.getD "undefined"))
    let st' : WorkflowState :=
      { state with
        agents := { state.agents with research := some { findings := findings, completedAt := now } }
        status := "structuring" }
    .ok { w with
          agentState := kvPut w.agentState (wfKey p.notionPageId) st'
          queueSent :=
            { type := "structure", notionPageId := p.notionPageId
              category := p.category } :: w.queueSent }

/-- `runStructure({notionPageId, category})`; the prompt dereferences
`state.agents.research.findings`, so a workflow that never completed research makes
the handler throw before writing. -/
def runStructure (gemini : String → String) (now : Nat) (p : StepPayload) (w : OrchWorld) :
    Except String OrchWorld :=
  match kvGet w.agentState (wfKey p.notionPageId) with
  | none => .error "TypeError: state is null"
  | some state =>
    match state.agents.research with
    | none => .error "TypeError: research is undefined"
    | some r =>
      let outline := gemini (structurePrompt (p.category.getD "undefined") r.findings)
      let st' : WorkflowState :=
        { state with
          agents := { state.agents with structureStage := some { outline := outline, completedAt := now } }
          status := "factchecking" }
      .ok { w with
            agentState := kvPut w.agentState (wfKey p.notionPageId) st'
            queueSent := { type := "factcheck", notionPageId := p.notionPageId } :: w.queueSent }

/-- `runFactCheck({notionPageId})`; dereferences the research findings and the
structure outline. -/
def runFactCheck (gemini : String → String) (now : Nat) (p : StepPayload) (w : OrchWorld) :
    Except String OrchWorld :=
  match kvGet w.agentState (wfKey p.notionPageId) with
  | none => .error "TypeError: state is null"
  | some state =>
    match state.agents.research, state.agents.structureStage with
    | some r, some s =>
      let verification := gemini (factcheckPrompt r.findings s.outline)
      let st' : WorkflowState :=
        { state with
          agents := { state.agents with factcheck := some { verification := verification, completedAt := now } }
          status := "finalizing" }
      .ok { w with
            agentState := kvPut w.agentState (wfKey p.notionPageId) st'
            queueSent := { type := "finalize", notionPageId := p.notionPageId } :: w.queueSent }
    | _, _ => .error "TypeError: missing stage results"

/-- `finalize({notionPageId})`: generate the draft from all prior stage results, push
it to the Notion workspace (two API calls, recorded), record `agents.final`, set the
terminal status and `completedAt`, and persist.  No further queue message is sent. -/
def finalize (gemini : String → String) (now : Nat) (p : StepPayload) (w : OrchWorld) :
    Except String OrchWorld :=
  match kvGet w.agentState (wfKey p.notionPageId) with
  | none => .error "TypeError: state is null"
  | some state =>
    match state.agents.research, state.agents.structureStage, state.agents.factcheck with
    | some r, some s, some f =>
      let content := gemini (finalPrompt state.category r.findings s.outline f.verification)
      let st' : WorkflowState :=
        { state with
          agents := { state.agents with final := some { content := content, wordCount := jsWordCount content } }
          status := "draft_ready"
          completedAt := some now }
      .ok { w with
            agentState := kvPut w.agentState (wfKey p.notionPageId) st'
            notionCalls := p.notionPageId :: p.notionPageId :: w.notionCalls }
    | _, _, _ => .error "TypeError: missing stage results"

/-- The workflow status that a stage message expects to find loaded. -/
def expectedStatus (stage : String) : Option String :=
  if stage = "research" then some "researching"
  else if stage = "structure" then some "structuring"
  else if stage = "factcheck" then some "factchecking"
  else if stage = "finalize" then some "finalizing"
  else none

/-- Modelled from the spec: `EnhancementOrchestrator.processStep(stageName, payload)`
is invoked by the worker's `queue` handler for the four enhancement message types, but
its definition is absent from the available source (only its caller and the four stage
handlers above exist).  Spec section 4.2: it reloads the WorkflowState by the id
embedded in the payload; a missing workflow is a distinct not-found failure (section
7); if the loaded `status` does not match the incoming stage name the message is a
stale or out-of-order delivery and is discarded without mutating state (sections 4.2
and 7, type c); otherwise it dispatches to the stage's handler. -/
def processStep (gemini : String → String) (now : Nat) (stage : String) (p : StepPayload)
    (w : OrchWorld) : Except String OrchWorld :=
  match kvGet w.agentState (wfKey p.notionPageId) with
  | none => .error "workflow not found"
  | some state =>
    if expectedStatus stage = some state.status then
      if stage = "research" then runResearch gemini now p w
      else if stage = "structure" then runStructure gemini now p w
      else if stage = "factcheck" then runFactCheck gemini now p w
      else if stage = "finalize" then finalize gemini now p w
      else .ok w
    else .ok w

/-- Delivery of one stage message through the queue consumer: a successful handler
leaves the new world (the message is acked); a thrown handler leaves the world as it
was (the message is retried; every throw in the handlers above occurs before any
write). -/
def stepMessage (gemini : String → String) (now : Nat) (m : String × StepPayload)
    (w : OrchWorld) : OrchWorld :=
  match processStep gemini now m.1 m.2 w with
  | .ok w' => w'
  | .error _ => w

/-- Delivery of a sequence of stage messages (re-deliveries and arbitrary interleaving
across workflow ids included). -/
def runMessages (gemini : String → String) (now : Nat) (msgs : List (String × StepPayload))
    (w : OrchWorld) : OrchWorld :=
  msgs.foldl (fun w m => stepMessage gemini now m w) w

/-- The persisted status of a workflow id, if the workflow exists. -/
def statusOf (w : OrchWorld) (id : String) : Option String :=
  (kvGet w.agentState (wfKey id)).map (fun st => st.status)

/-- Position of a status value in the fixed pipeline order. -/
def statusRank (s : String) : Nat :=
  if s = "researching" then 0
  else if s = "structuring" then 1
  else if s = "factchecking" then 2
  else if s = "finalizing" then 3
  else if s = "draft_ready" then 4
  else 0

/-- Position of a stage message type in the pipeline order. -/
def stageRank (stage : String) : Nat :=
  if stage = "research" then 0
  else if stage = "structure" then 1
  else if stage = "factcheck" then 2
  else if stage = "finalize" then 3
  else 0

/-- The status a successful stage transition writes. -/
def nextStatusOfStage (stage : String) : String :=
  if stage = "research" then "structuring"
  else if stage = "structure" then "factchecking"
  else if stage = "factcheck" then "finalizing"
  else if stage = "finalize" then "draft_ready"
  else ""

/-- The four enhancement stage message types routed to `processStep`. -/
def knownStages : List String := ["research", "structure", "factcheck", "finalize"]

/-- Rank of a workflow's persisted status (a missing workflow ranks lowest). -/
def rankOf (w : OrchWorld) (id : String) : Nat :=
  match statusOf w id with
  | none => 0
  | some s => statusRank s

/-! ## Queue Dispatcher (the worker's `queue(batch, env, ctx)` export)

The per-type handlers (orchestrator step, publisher, refresher, cross-poster) act on
an abstract world `σ` and either return the updated world or throw; they are supplied
as parameters since their bodies live in their own components. -/

/-- A delivered queue message: its `type` tag and the rest of the body
(`const { type, ...data } = message.body`), kept opaque. -/
structure QueueMessage where
  type : String
  data : String
deriving DecidableEq

/-- How the consumer resolves one message: `message.ack()` or
`message.retry({ delaySeconds })`. -/
inductive Resolution where
  | ack : Resolution
  | retry : Nat → Resolution
deriving DecidableEq

/-- The handler objects the dispatcher routes to. -/
structure QueueHandlers (σ : Type) where
  processStepH : String → String → σ → Except String σ
  publishH : String → σ → Except String σ
  processRefreshH : String → σ → Except String σ
  processCrossPostH : String → σ → Except String σ

/-- The message `type` tags with a `case` in the dispatcher's `switch`. -/
def knownTypes : List String :=
  ["research", "structure", "factcheck", "finalize", "publish", "refresh", "crosspost"]

/-- The body of the dispatcher's `try` block for one message: route on the `type` tag;
a tag without a `case` falls through the `switch` and changes nothing. -/
def handleMessage {σ : Type} (h : QueueHandlers σ) (m : QueueMessage) (s : σ) :
    Except String σ :=
  if m.type = "research" ∨ m.type = "structure" ∨ m.type = "factcheck" ∨ m.type = "finalize" then
    h.processStepH m.type m.data s
  else if m.type = "publish" then h.publishH m.data s
  else if m.type = "refresh" then h.processRefreshH m.data s
  else if m.type = "crosspost" then h.processCrossPostH m.data s
  else .ok s

/-- The batch loop: each message is handled inside its own `try`; success is followed
by `ack()`, a throw by `retry({ delaySeconds: 60 })`, and the loop continues either
way.  Returns the final world and the per-message resolutions in delivery order. -/
def queueBatch {σ : Type} (h : QueueHandlers σ) : List QueueMessage → σ → σ × List Resolution
  | [], s => (s, [])
  | m :: ms, s =>
    match handleMessage h m s with
    | .ok s' =>
      let r := queueBatch h ms s'
      (r.1, Resolution.ack :: r.2)
    | .error _ =>
      let r := queueBatch h ms s
      (r.1, Resolution.retry 60 :: r.2)

/-! ## Concrete fixtures used by witness and counterexample theorems -/

/-- A feed configuration for witness runs. -/
def feedFix : SourceConfig :=
  { id := "rss:https://blog.example.com/rss/", name := "Example Blog", type := "rss"
    minScore := some 80, category := "DevOps", sectionName := "engineering"
    tags := ["edge"], featured := true }

/-- An oracle that always answers with the text `80`. -/
def oracleFix : String → Option String := fun _ => some "80"

/-- Two feed entries whose links agree on their first 15 bytes (`http://x.io/aaa`)
and differ afterwards, with different titles. -/
def rssEntryFix1 : RSSEntry :=
  { title := "First post"
    link := [104, 116, 116, 112, 58, 47, 47, 120, 46, 105, 111, 47, 97, 97, 97, 49]
    description := "d1" }

/-- Second entry: same first 15 link bytes, different final byte and title. -/
def rssEntryFix2 : RSSEntry :=
  { title := "Second post"
    link := [104, 116, 116, 112, 58, 47, 47, 120, 46, 105, 111, 47, 97, 97, 97, 50]
    description := "d2" }

/-- A workflow mid-pipeline: research done, status already `factchecking`. -/
def wfFix : WorkflowState :=
  { status := "factchecking", notionPageId := "abc", videoUrl := "https://v.example/w"
    category := "DevOps", sectionName := "engineering", tags := ["edge"]
    startedAt := 5
    agents := { research := some { findings := "F", completedAt := 6 }
                structureStage := some { outline := "O", completedAt := 7 } } }

/-- A world holding only `wfFix`. -/
def worldFix : OrchWorld := { agentState := [(wfKey "abc", wfFix)] }

/-- A deterministic generative oracle for witness runs. -/
def geminiFix : String → String := fun _ => "generated text"

/-- Handlers over `Nat` worlds where `publish` throws and the others succeed by
bumping the world. -/
def handlersFix : QueueHandlers Nat :=
  { processStepH := fun _ _ s => .ok (s + 1)
    publishH := fun _ _ => .error "downstream API failure"
    processRefreshH := fun _ s => .ok (s + 1)
    processCrossPostH := fun _ s => .ok (s + 1) }

/-- A `publish` message (its handler in `handlersFix` throws). -/
def msgPublishFix : QueueMessage := { type := "publish", data := "a1" }

/-- A `refresh` message (its handler in `handlersFix` succeeds). -/
def msgRefreshFix : QueueMessage := { type := "refresh", data := "a2" }

/-- A message whose type has no `case` in the dispatcher. -/
def msgUnknownFix : QueueMessage := { type := "newsletter", data := "a3" }

/-- The `start` input of the C4 scenario (same item id as `wfFix`). -/
def startInputFix : StartInput :=
  { notionPageId := "abc", videoUrl := "u", category := "DevOps"
    sectionName := "engineering", tags := [] }

/-- The `start` input of the concrete C2 scenario: item id `abc`, category `DevOps`. -/
def scenarioInput (videoUrl sectionName : String) (tags : List String) : StartInput :=
  { notionPageId := "abc", videoUrl := videoUrl, category := "DevOps"
    sectionName := sectionName, tags := tags }

/-- The payload of the `research` message `start` enqueues in the C2 scenario. -/
def scenarioPayload (videoUrl : String) : StepPayload :=
  { notionPageId := "abc", videoUrl := some videoUrl, category := some "DevOps" }

/-! ## Helper lemmas -/

theorem kvGet_put_self {α : Type} (kv : List (String × α)) (k : String) (v : α) :
    kvGet (kvPut kv k v) k = some v := by
  simp [kvGet, kvPut]

theorem kvGet_put_ne {α : Type} (kv : List (String × α)) (k k' : String) (v : α)
    (h : k' ≠ k) : kvGet (kvPut kv k v) k' = kvGet kv k' := by
  simp [kvGet, kvPut, Ne.symm h]

theorem wfKey_inj {a b : String} (h : wfKey a = wfKey b) : a = b := by
  have hd : "workflow:".data ++ a.data = "workflow:".data ++ b.data :=
    congrArg String.data h
  have hab : a.data = b.data := List.append_cancel_left hd
  cases a
  cases b
  exact congrArg String.mk hab

theorem parseScore_pos (resp : Option String) : 1 ≤ parseScore resp := by
  unfold parseScore
  cases firstDigitRun (responseText resp).data with
  | none => norm_num
  | some ds =>
    by_cases h : digitsToNat ds = 0 <;> simp [h]
    · omega

/-! ## Claims about `scoreContent` (C7, C8, C10) -/

/-- Claim C7, as stated, is false: the parsed relevance score is not confined to
`[0,100]`.  An oracle response whose first digit run is `150` makes `scoreContent`
return `150`, which is what gets compared against the threshold and persisted. -/
theorem parsed_score_range_counterexample :
    scoreContent (fun _ => some "150") "t" "d" "DevOps" = 150 ∧
    ¬ scoreContent (fun _ => some "150") "t" "d" "DevOps" ≤ 100 := by
  constructor <;> decide

/-- Claim C7 amended: the score `scoreContent` returns is always a positive integer
(at least 1, so in particular never negative and never 0), but it carries no upper
bound of 100: it equals the first digit run of the response whenever that run is
nonzero, and 50 otherwise. -/
theorem parsed_score_positive (oracle : String → Option String)
    (title description category : String) :
    1 ≤ scoreContent oracle title description category :=
  parseScore_pos _

/-- Claim C8: an oracle response containing no parseable integer — including a missing
or an empty response — makes `scoreContent` return the default 50 (the embedding is a
total function, so no exception path exists). -/
theorem scoring_fallback (oracle : String → Option String)
    (title description category : String)
    (h : ∀ s, oracle (scorePrompt title description category) = some s →
        firstDigitRun s.data = none) :
    scoreContent oracle title description category = 50 := by
  show parseScore (oracle (scorePrompt title description category)) = 50
  cases ho : oracle (scorePrompt title description category) with
  | none => rfl
  | some s =>
    have hs : firstDigitRun s.data = none := h s ho
    by_cases he : s = ""
    · subst he; rfl
    · simp [parseScore, responseText, he, hs]

theorem scoring_fallback_witness :
    scoreContent (fun _ => some "No parseable integer here.") "t" "d" "DevOps" = 50 :=
  scoring_fallback (fun _ => some "No parseable integer here.") "t" "d" "DevOps"
    (fun s hs => by cases hs; decide)

/-- Claim C10: when the first integer in the oracle's response is `0`, `scoreContent`
returns the fallback 50 rather than 0 (JavaScript `parsed || 50` treats 0 as falsy),
so the caller cannot tell a zero score from an unparseable response. -/
theorem zero_score_fallback (oracle : String → Option String)
    (title description category : String) (s : String) (ds : List Char)
    (ho : oracle (scorePrompt title description category) = some s)
    (hr : firstDigitRun s.data = some ds)
    (hz : digitsToNat ds = 0) :
    scoreContent oracle title description category = 50 := by
  have hne : s ≠ "" := by
    intro he
    subst he
    exact Option.noConfusion (show (none : Option (List Char)) = some ds from hr)
  show parseScore (oracle (scorePrompt title description category)) = 50
  rw [ho]
  simp [parseScore, responseText, hne, hr, hz]

theorem zero_score_fallback_witness :
    scoreContent (fun _ => some "0") "t" "d" "DevOps" = 50 :=
  zero_score_fallback (fun _ => some "0") "t" "d" "DevOps" "0" ['0'] rfl rfl rfl

/-! ## Claim C5: the queue dispatcher contract -/

/-- Claim C5: every message of a batch is resolved exactly once (the resolution list is
in bijection with the batch); a message whose handler succeeds is acknowledged and the
batch continues from the updated world; a message whose handler throws is retried with
a 60-second delay, the world is untouched by it, and the remaining messages are still
processed and resolved; a message whose type is outside the known set changes nothing
for any handlers whatsoever — no handler is invoked — and (by the success equation) it
is acknowledged. -/
theorem queue_dispatcher_contract :
    ∀ (σ : Type) (h : QueueHandlers σ),
      (∀ (msgs : List QueueMessage) (s : σ),
        (queueBatch h msgs s).2.length = msgs.length)
      ∧ (∀ (m : QueueMessage) (ms : List QueueMessage) (s s' : σ),
          handleMessage h m s = .ok s' →
          queueBatch h (m :: ms) s =
            ((queueBatch h ms s').1, Resolution.ack :: (queueBatch h ms s').2))
      ∧ (∀ (m : QueueMessage) (ms : List QueueMessage) (s : σ) (e : String),
          handleMessage h m s = .error e →
          queueBatch h (m :: ms) s =
            ((queueBatch h ms s).1, Resolution.retry 60 :: (queueBatch h ms s).2))
      ∧ (∀ m : QueueMessage, m.type ∉ knownTypes →
          ∀ (σ2 : Type) (h2 : QueueHandlers σ2) (s2 : σ2),
            handleMessage h2 m s2 = .ok s2) := by
  intro σ h
  refine ⟨?_, ?_, ?_, ?_⟩
  · intro msgs
    induction msgs with
    | nil => intro s; rfl
    | cons m ms ih =>
      intro s
      unfold queueBatch
      cases handleMessage h m s with
      | ok s' => simp [ih s']
      | error e => simp [ih s]
  · intro m ms s s' hok
    simp only [queueBatch, hok]
  · intro m ms s e herr
    simp only [queueBatch, herr]
  · intro m hm σ2 h2 s2
    have h1 : m.type ≠ "research" := by intro hc; exact hm (by rw [hc]; decide)
    have h2' : m.type ≠ "structure" := by intro hc; exact hm (by rw [hc]; decide)
    have h3 : m.type ≠ "factcheck" := by intro hc; exact hm (by rw [hc]; decide)
    have h4 : m.type ≠ "finalize" := by intro hc; exact hm (by rw [hc]; decide)
    have h5 : m.type ≠ "publish" := by intro hc; exact hm (by rw [hc]; decide)
    have h6 : m.type ≠ "refresh" := by intro hc; exact hm (by rw [hc]; decide)
    have h7 : m.type ≠ "crosspost" := by intro hc; exact hm (by rw [hc]; decide)
    simp [handleMessage, h1, h2', h3, h4, h5, h6, h7]

theorem queue_dispatcher_contract_witness :
    queueBatch handlersFix [msgPublishFix, msgRefreshFix, msgUnknownFix] 0 =
      ((queueBatch handlersFix [msgRefreshFix, msgUnknownFix] 0).1,
        Resolution.retry 60 :: (queueBatch handlersFix [msgRefreshFix, msgUnknownFix] 0).2)
    ∧ handleMessage handlersFix msgUnknownFix 0 = .ok 0 :=
  ⟨(queue_dispatcher_contract Nat handlersFix).2.2.1 msgPublishFix
      [msgRefreshFix, msgUnknownFix] 0 "downstream API failure" rfl,
   (queue_dispatcher_contract Nat handlersFix).2.2.2 msgUnknownFix (by decide)
      Nat handlersFix 0⟩

/-! ## Claim C6: idempotent discovery -/

theorem processYTItem_skip (channel : SourceConfig) (oracle : String → Option String)
    (st : DiscoveryState) (item : YTItem)
    (h : isProcessed st.kv ("video:" ++ item.videoId) = true) :
    processYTItem channel oracle st item = st := by
  simp [processYTItem, h]

theorem isProcessed_mark (kv : List (String × DedupRecord)) (k k' : String)
    (v : DedupRecord) (h : isProcessed kv k = true) :
    isProcessed (markProcessed kv k' v) k = true := by
  unfold isProcessed markProcessed kvPut kvGet
  by_cases he : k' = k <;> simp [he]
  · exact h

theorem isProcessed_mark_self (kv : List (String × DedupRecord)) (k : String)
    (v : DedupRecord) : isProcessed (markProcessed kv k v) k = true := by
  simp [isProcessed, markProcessed, kvGet_put_self]

theorem processYTItem_kv_mono (channel : SourceConfig) (oracle : String → Option String)
    (st : DiscoveryState) (item : YTItem) (k : String)
    (h : isProcessed st.kv k = true) :
    isProcessed (processYTItem channel oracle st item).kv k = true := by
  unfold processYTItem
  by_cases hp : isProcessed st.kv ("video:" ++ item.videoId) = true
  · simp [hp, h]
  · by_cases ht : minScoreOr70 channel <
        scoreContent oracle item.title item.description channel.category
    · simp only [hp, if_false, ht, if_true]
      exact isProcessed_mark _ _ _ _ h
    · simp only [hp, if_false, ht, if_true]
      exact isProcessed_mark _ _ _ _ h

theorem processYTItem_marks (channel : SourceConfig) (oracle : String → Option String)
    (st : DiscoveryState) (item : YTItem) :
    isProcessed (processYTItem channel oracle st item).kv ("video:" ++ item.videoId) = true := by
  unfold processYTItem
  by_cases hp : isProcessed st.kv ("video:" ++ item.videoId) = true
  · simp [hp]
  · by_cases ht : minScoreOr70 channel <
        scoreContent oracle item.title item.description channel.category
    · simp only [hp, if_false, ht, if_true]
      exact isProcessed_mark_self _ _ _
    · simp only [hp, if_false, ht, if_true]
      exact isProcessed_mark_self _ _ _

theorem processYouTube_kv_mono (channel : SourceConfig) (oracle : String → Option String)
    (items : List YTItem) (st : DiscoveryState) (k : String)
    (h : isProcessed st.kv k = true) :
    isProcessed (processYouTube channel oracle items st).kv k = true := by
  induction items generalizing st with
  | nil => exact h
  | cons item rest ih =>
    exact ih _ (processYTItem_kv_mono channel oracle st item k h)

theorem processYouTube_all_marked (channel : SourceConfig) (oracle : String → Option String)
    (items : List YTItem) (st : DiscoveryState) :
    ∀ item ∈ items,
      isProcessed (processYouTube channel oracle items st).kv ("video:" ++ item.videoId) = true := by
  induction items generalizing st with
  | nil => intro item hmem; cases hmem
  | cons hd rest ih =>
    intro item hmem
    cases hmem with
    | head =>
      exact processYouTube_kv_mono channel oracle rest _ _
        (processYTItem_marks channel oracle st hd)
    | tail _ hmem' => exact ih _ item hmem'

theorem processYouTube_all_skip (channel : SourceConfig) (oracle : String → Option String)
    (items : List YTItem) (st : DiscoveryState)
    (h : ∀ item ∈ items, isProcessed st.kv ("video:" ++ item.videoId) = true) :
    processYouTube channel oracle items st = st := by
  induction items with
  | nil => rfl
  | cons hd rest ih =>
    have hhd : processYTItem channel oracle st hd = st :=
      processYTItem_skip channel oracle st hd (h hd (List.mem_cons_self hd rest))
    show processYouTube channel oracle rest (processYTItem channel oracle st hd) = st
    rw [hhd]
    exact ih (fun item hmem => h item (List.mem_cons_of_mem hd hmem))

/-- Claim C6: a second discovery sweep over an unchanged listing, with the first
sweep's dedup records still in the store, is a no-op: every item's dedup key is found
by `isProcessed`, so nothing is re-scored (the second run's result does not even
depend on its oracle), no intake record is re-sent, and neither the `approved` counter
nor any other part of the run state changes. -/
theorem idempotent_discovery (channel : SourceConfig)
    (oracle1 oracle2 : String → Option String) (items : List YTItem)
    (st : DiscoveryState) :
    processYouTube channel oracle2 items (processYouTube channel oracle1 items st)
      = processYouTube channel oracle1 items st :=
  processYouTube_all_skip channel oracle2 items _
    (fun item hmem => processYouTube_all_marked channel oracle1 items st item hmem)

/-! ## Claim C9: the RSS dedup key is a 20-character prefix of the base64 link -/

theorem base64_append : ∀ (a : List Nat), a.length % 3 = 0 →
    ∀ b, base64 (a ++ b) = base64 a ++ base64 b
  | [], _, b => rfl
  | [_], h, _ => by simp at h
  | [_, _], h, _ => by simp at h
  | x :: y :: z :: rest, h, b => by
    have hr : rest.length % 3 = 0 := by
      have : (x :: y :: z :: rest).length = rest.length + 3 := by
        simp [List.length]
      rw [this] at h
      omega
    cases b with
    | nil => simp [base64]
    | cons b0 bs =>
      show base64 (x :: y :: z :: (rest ++ b0 :: bs)) = _
      cases rest with
      | nil => rfl
      | cons r0 rs =>
        simp only [base64, List.cons_append]
        rw [← List.cons_append]
        rw [base64_append (r0 :: rs) hr (b0 :: bs)]

theorem base64_length : ∀ (a : List Nat), a.length % 3 = 0 →
    (base64 a).length = 4 * (a.length / 3)
  | [], _ => rfl
  | [_], h => by simp at h
  | [_, _], h => by simp at h
  | x :: y :: z :: rest, h => by
    have hl : (x :: y :: z :: rest).length = rest.length + 3 := by
      simp [List.length]
    have hr : rest.length % 3 = 0 := by rw [hl] at h; omega
    show (base64 rest).length + 4 = 4 * ((x :: y :: z :: rest).length / 3)
    rw [base64_length rest hr, hl]
    omega

theorem rssItemId_take15 (l1 l2 : List Nat) (h1 : 15 ≤ l1.length) (h2 : 15 ≤ l2.length)
    (h : l1.take 15 = l2.take 15) : rssItemId l1 = rssItemId l2 := by
  have key : ∀ l : List Nat, 15 ≤ l.length → (base64 l).take 20 = base64 (l.take 15) := by
    intro l hl
    have hsplit : l = l.take 15 ++ l.drop 15 := (List.take_append_drop 15 l).symm
    have hlen : (l.take 15).length = 15 := by
      rw [List.length_take]
      omega
    have hmod : (l.take 15).length % 3 = 0 := by rw [hlen]
    have hb : base64 l = base64 (l.take 15) ++ base64 (l.drop 15) := by
      conv_lhs => rw [hsplit]
      exact base64_append _ hmod _
    have hblen : (base64 (l.take 15)).length = 20 := by
      rw [base64_length _ hmod, hlen]
    rw [hb, ← hblen, List.take_left]
  unfold rssItemId
  rw [key l1 h1, key l2 h2, h]

theorem processRSSEntry_skip (feed : SourceConfig) (oracle : String → Option String)
    (st : DiscoveryState) (e : RSSEntry)
    (h : isProcessed st.kv ("rss:" ++ rssItemId e.link) = true) :
    processRSSEntry feed oracle st e = st := by
  simp [processRSSEntry, h]

theorem processRSSEntry_marks (feed : SourceConfig) (oracle : String → Option String)
    (st : DiscoveryState) (e : RSSEntry) :
    isProcessed (processRSSEntry feed oracle st e).kv ("rss:" ++ rssItemId e.link) = true := by
  unfold processRSSEntry
  by_cases hp : isProcessed st.kv ("rss:" ++ rssItemId e.link) = true
  · simp [hp]
  · by_cases ht : minScoreOr70 feed < scoreContent oracle e.title e.description feed.category
    · simp only [hp, if_false, ht, if_true]
      exact isProcessed_mark_self _ _ _
    · simp only [hp, if_false, ht, if_true]
      exact isProcessed_mark_self _ _ _

/-- Claim C9: the dedup key of a feed entry is `rss:` followed by the first 20 base64
characters of its link — a function of the link's first 15 bytes and of nothing else —
so two entries whose links agree on those bytes share a key, and the second entry of
such a pair contributes nothing to a `processRSS` run: it is skipped as already seen
even though its link tail and title differ. -/
theorem rss_dedup_key_first15 :
    (∀ (l1 l2 : List Nat), 15 ≤ l1.length → 15 ≤ l2.length → l1.take 15 = l2.take 15 →
      rssItemId l1 = rssItemId l2)
    ∧ (∀ (feed : SourceConfig) (oracle : String → Option String) (e1 e2 : RSSEntry)
        (st : DiscoveryState), 15 ≤ e1.link.length → 15 ≤ e2.link.length →
        e1.link.take 15 = e2.link.take 15 →
        processRSS feed oracle [e1, e2] st = processRSS feed oracle [e1] st) := by
  refine ⟨rssItemId_take15, ?_⟩
  intro feed oracle e1 e2 st h1 h2 h
  have hid : rssItemId e2.link = rssItemId e1.link :=
    rssItemId_take15 e2.link e1.link h2 h1 h.symm
  show processRSSEntry feed oracle (processRSSEntry feed oracle st e1) e2
      = processRSSEntry feed oracle st e1
  apply processRSSEntry_skip
  rw [hid]
  exact processRSSEntry_marks feed oracle st e1

theorem rss_dedup_key_first15_witness :
    rssItemId rssEntryFix1.link = rssItemId rssEntryFix2.link
    ∧ processRSS feedFix oracleFix [rssEntryFix1, rssEntryFix2] { kv := [] }
        = processRSS feedFix oracleFix [rssEntryFix1] { kv := [] } :=
  ⟨rss_dedup_key_first15.1 rssEntryFix1.link rssEntryFix2.link (by decide) (by decide)
      (by decide),
   rss_dedup_key_first15.2 feedFix oracleFix rssEntryFix1 rssEntryFix2 { kv := [] }
      (by decide) (by decide) (by decide)⟩

/-! ## Claims about the Workflow State Machine (C1, C2, C3, C4) -/

/-- Claim C1: delivering a stage message to a workflow whose persisted status has
already advanced past that stage is a detectable mismatch between the loaded `status`
and the incoming stage name; the step is dropped whole — the returned world is the
incoming world, so `stageResults` (the `agents` map) is untouched and no next-stage
message is enqueued — and the drop is a success (`ok`), so the queue consumer acks
rather than retries. -/
theorem stale_message_safety (gemini : String → String) (now : Nat) (stage : String)
    (p : StepPayload) (w : OrchWorld) (st : WorkflowState)
    (hkv : kvGet w.agentState (wfKey p.notionPageId) = some st)
    (hstage : stage ∈ knownStages)
    (hpast : stageRank stage < statusRank st.status) :
    processStep gemini now stage p w = .ok w := by
  have h4 : stage = "research" ∨ stage = "structure" ∨ stage = "factcheck" ∨
      stage = "finalize" := by
    simpa [knownStages] using hstage
  have hne : ¬ expectedStatus stage = some st.status := by
    rcases h4 with rfl | rfl | rfl | rfl <;>
      · intro hc
        have hs : st.status = _ := (Option.some.inj hc).symm
        rw [hs] at hpast
        simp [stageRank, statusRank] at hpast
  unfold processStep
  rw [hkv]
  simp [hne]

theorem stale_message_safety_witness :
    processStep geminiFix 9 "research" { notionPageId := "abc" } worldFix = .ok worldFix :=
  stale_message_safety geminiFix 9 "research" { notionPageId := "abc" } worldFix wfFix
    (by decide) (by decide) (by decide)

/-- Claim C4 is false on the source: `start` never rejects and never no-ops.  With a
workflow for id `abc` already persisted at status `factchecking` and a recorded
research result, calling `start` again for `abc` silently replaces it: the reloaded
state is back at `researching` with its accumulated `agents.research` gone. -/
theorem start_rejects_existing_counterexample :
    statusOf worldFix "abc" = some "factchecking"
    ∧ statusOf (start 99 startInputFix worldFix) "abc" = some "researching"
    ∧ ((kvGet worldFix.agentState (wfKey "abc")).bind (fun st => st.agents.research))
        = some { findings := "F", completedAt := 6 }
    ∧ ((kvGet (start 99 startInputFix worldFix).agentState
          (wfKey "abc")).bind (fun st => st.agents.research)) = none := by
  refine ⟨rfl, rfl, rfl, rfl⟩

/-- Claim C4 amended: `start` performs no existence check at all — for every prior
store state, it persists a fresh `WorkflowState` at `researching` with empty
`stageResults` under the item's key (silently replacing whatever was there) and
enqueues one new `research` message. -/
theorem start_always_overwrites (now : Nat) (inp : StartInput) (w : OrchWorld) :
    kvGet (start now inp w).agentState (wfKey inp.notionPageId)
      = some { status := "researching", notionPageId := inp.notionPageId
               videoUrl := inp.videoUrl, category := inp.category
               sectionName := inp.sectionName, tags := inp.tags
               startedAt := now, agents := {}, completedAt := none }
    ∧ (start now inp w).queueSent
      = { type := "research", notionPageId := inp.notionPageId
          videoUrl := some inp.videoUrl, category := some inp.category } :: w.queueSent :=
  ⟨kvGet_put_self _ _ _, rfl⟩

/-- Claim C2: the concrete start/processStep scenario for item id `abc` in category
`DevOps`: `start` persists the workflow at `researching` and enqueues exactly one
`research` message carrying `abc`; delivering that `research` message leaves the
workflow at `structuring` with `stageResults.research` populated by the generated
findings, and exactly one `structure` message newly enqueued. -/
theorem start_processStep_scenario (gemini : String → String) (now1 now2 : Nat)
    (videoUrl sectionName : String) (tags : List String) :
    statusOf (start now1 (scenarioInput videoUrl sectionName tags) {}) "abc"
      = some "researching"
    ∧ (start now1 (scenarioInput videoUrl sectionName tags) {}).queueSent
      = [{ type := "research", notionPageId := "abc", videoUrl := some videoUrl,
           category := some "DevOps" }]
    ∧ statusOf (stepMessage gemini now2 ("research", scenarioPayload videoUrl)
        (start now1 (scenarioInput videoUrl sectionName tags) {})) "abc"
      = some "structuring"
    ∧ ((kvGet (stepMessage gemini now2 ("research", scenarioPayload videoUrl)
        (start now1 (scenarioInput videoUrl sectionName tags) {})).agentState
        (wfKey "abc")).bind (fun st => st.agents.research))
      = some { findings := gemini (researchPrompt "DevOps" videoUrl), completedAt := now2 }
    ∧ (stepMessage gemini now2 ("research", scenarioPayload videoUrl)
        (start now1 (scenarioInput videoUrl sectionName tags) {})).queueSent
      = [{ type := "structure", notionPageId := "abc", category := some "DevOps" },
         { type := "research", notionPageId := "abc", videoUrl := some videoUrl,
           category := some "DevOps" }] :=
  ⟨rfl, rfl, rfl, rfl, rfl⟩

theorem statusOf_stepMessage (gemini : String → String) (now : Nat) (stage : String)
    (p : StepPayload) (w : OrchWorld) (id : String) :
    statusOf (stepMessage gemini now (stage, p) w) id = statusOf w id
    ∨ (statusOf w id = expectedStatus stage
       ∧ statusOf (stepMessage gemini now (stage, p) w) id
           = some (nextStatusOfStage stage)) := by
  unfold stepMessage
  cases hkv : kvGet w.agentState (wfKey p.notionPageId) with
  | none =>
    left
    simp [processStep, hkv]
  | some state =>
    by_cases hguard : expectedStatus stage = some state.status
    case neg =>
      left
      simp [processStep, hkv, hguard]
    case pos =>
      by_cases h1 : stage = "research"
      · subst h1
        have hst : state.status = "researching" :=
          (Option.some.inj hguard).symm
        by_cases hid : id = p.notionPageId
        · subst hid
          right
          constructor
          · simp [statusOf, hkv, hst, expectedStatus]
          · simp [processStep, hkv, hguard, runResearch, statusOf, kvGet_put_self,
              nextStatusOfStage]
        · left
          have hk : wfKey id ≠ wfKey p.notionPageId := fun hc => hid (wfKey_inj hc)
          simp [processStep, hkv, hguard, runResearch, statusOf,
            kvGet_put_ne _ _ _ _ hk]
      by_cases h2 : stage = "structure"
      · subst h2
        have hst : state.status = "structuring" :=
          (Option.some.inj hguard).symm
        cases hr : state.agents.research with
        | none =>
          left
          simp [processStep, hkv, hguard, runStructure, hr, h1]
        | some r =>
          by_cases hid : id = p.notionPageId
          · subst hid
            right
            constructor
            · simp [statusOf, hkv, hst, expectedStatus]
            · simp [processStep, hkv, hguard, runStructure, hr, h1, statusOf,
                kvGet_put_self, nextStatusOfStage]
          · left
            have hk : wfKey id ≠ wfKey p.notionPageId := fun hc => hid (wfKey_inj hc)
            simp [processStep, hkv, hguard, runStructure, hr, h1, statusOf,
              kvGet_put_ne _ _ _ _ hk]
      by_cases h3 : stage = "factcheck"
      · subst h3
        have hst : state.status = "factchecking" :=
          (Option.some.inj hguard).symm
        cases hr : state.agents.research with
        | none =>
          left
          simp [processStep, hkv, hguard, runFactCheck, hr, h1, h2]
        | some r =>
          cases hs : state.agents.structureStage with
          | none =>
            left
            simp [processStep, hkv, hguard, runFactCheck, hr, hs, h1, h2]
          | some sRec =>
            by_cases hid : id = p.notionPageId
            · subst hid
              right
              constructor
              · simp [statusOf, hkv, hst, expectedStatus]
              · simp [processStep, hkv, hguard, runFactCheck, hr, hs, h1, h2,
                  statusOf, kvGet_put_self, nextStatusOfStage]
            · left
              have hk : wfKey id ≠ wfKey p.notionPageId := fun hc => hid (wfKey_inj hc)
              simp [processStep, hkv, hguard, runFactCheck, hr, hs, h1, h2, statusOf,
                kvGet_put_ne _ _ _ _ hk]
      by_cases h4 : stage = "finalize"
      · subst h4
        have hst : state.status = "finalizing" :=
          (Option.some.inj hguard).symm
        cases hr : state.agents.research with
        | none =>
          left
          simp [processStep, hkv, hguard, finalize, hr, h1, h2, h3]
        | some r =>
          cases hs : state.agents.structureStage with
          | none =>
            left
            simp [processStep, hkv, hguard, finalize, hr, hs, h1, h2, h3]
          | some sRec =>
            cases hf : state.agents.factcheck with
            | none =>
              left
              simp [processStep, hkv, hguard, finalize, hr, hs, hf, h1, h2, h3]
            | some fRec =>
              by_cases hid : id = p.notionPageId
              · subst hid
                right
                constructor
                · simp [statusOf, hkv, hst, expectedStatus]
                · simp [processStep, hkv, hguard, finalize, hr, hs, hf, h1, h2, h3,
                    statusOf, kvGet_put_self, nextStatusOfStage]
              · left
                have hk : wfKey id ≠ wfKey p.notionPageId :=
                  fun hc => hid (wfKey_inj hc)
                simp [processStep, hkv, hguard, finalize, hr, hs, hf, h1, h2, h3,
                  statusOf, kvGet_put_ne _ _ _ _ hk]
      · exfalso
        have hnone : expectedStatus stage = none := by
          simp [expectedStatus, h1, h2, h3, h4]
        rw [hnone] at hguard
        exact Option.noConfusion hguard

theorem rankOf_stepMessage_le (gemini : String → String) (now : Nat)
    (m : String × StepPayload) (w : OrchWorld) (id : String) :
    rankOf w id ≤ rankOf (stepMessage gemini now m w) id := by
  obtain ⟨stage, p⟩ := m
  rcases statusOf_stepMessage gemini now stage p w id with h | ⟨h1, h2⟩
  · simp [rankOf, h]
  · by_cases e1 : stage = "research"
    · subst e1
      simp [rankOf, h1, h2, expectedStatus, statusRank, nextStatusOfStage]
    by_cases e2 : stage = "structure"
    · subst e2
      simp [rankOf, h1, h2, expectedStatus, statusRank, nextStatusOfStage]
    by_cases e3 : stage = "factcheck"
    · subst e3
      simp [rankOf, h1, h2, expectedStatus, statusRank, nextStatusOfStage]
    by_cases e4 : stage = "finalize"
    · subst e4
      simp [rankOf, h1, h2, expectedStatus, statusRank, nextStatusOfStage]
    · have hnone : expectedStatus stage = none := by
        simp [expectedStatus, e1, e2, e3, e4]
      simp [rankOf, h1, h2, hnone]

/-- Claim C3: queue-message delivery moves the persisted `status` only forward along
the fixed order researching, structuring, factchecking, finalizing, draft_ready.  Per
delivered message (modelled-from-spec `processStep` included), a workflow's status
either stays exactly as it was (stale drop, mismatch, missing workflow, or thrown
handler) or advances from the stage's expected status to its immediate successor —
never backwards, never skipping; consequently over every message sequence —
re-deliveries and interleavings across ids included — the status rank is monotonically
non-decreasing. -/
theorem monotonic_stage_progression :
    (∀ (gemini : String → String) (now : Nat) (stage : String) (p : StepPayload)
        (w : OrchWorld) (id : String),
      statusOf (stepMessage gemini now (stage, p) w) id = statusOf w id
      ∨ (statusOf w id = expectedStatus stage
         ∧ statusOf (stepMessage gemini now (stage, p) w) id
             = some (nextStatusOfStage stage)))
    ∧ (∀ (gemini : String → String) (now : Nat) (msgs : List (String × StepPayload))
        (w : OrchWorld) (id : String),
      rankOf w id ≤ rankOf (runMessages gemini now msgs w) id) := by
  refine ⟨statusOf_stepMessage, ?_⟩
  intro gemini now msgs
  induction msgs with
  | nil => intro w id; exact le_refl _
  | cons m ms ih =>
    intro w id
    have hstep : rankOf w id ≤ rankOf (stepMessage gemini now m w) id :=
      rankOf_stepMessage_le gemini now m w id
    have hrest : rankOf (stepMessage gemini now m w) id
        ≤ rankOf (runMessages gemini now ms (stepMessage gemini now m w)) id := ih _ _
    have hrm : runMessages gemini now (m :: ms) w
        = runMessages gemini now ms (stepMessage gemini now m w) := rfl
    rw [hrm]
    exact le_trans hstep hrest

end TechFusion
